import Mathlib

/-!
Shallow embedding of the find-imports analyzer
(the `FindImportsSwcAnalyzer` class and its helpers).

JavaScript values that may be `undefined` are modelled with `Option`;
JavaScript truthiness on strings (`undefined` and `""` are falsy) is
modelled by `jsTruthyStr`.  A visitor callback that would throw a
`TypeError` (reading a field of `undefined`) is modelled as
`Except.error ()`.

The analyzer is dialect-agnostic in the source (oxc/swc/babel AST
shapes); we model a node as a record of exactly the fields the analyzer
reads, and an AST as the document-order sequence of nodes visited by the
traversal driver.
-/

/-- A sub-node of which the analyzer only reads `.type` and `.value`
(string-literal nodes, source nodes, callee nodes). -/
structure LitNode where
  type : String
  value? : Option String := none
deriving DecidableEq, Repr

/-- An identifier-ish sub-node of a specifier: the analyzer reads
`.value` (swc shape) and `.name` (babel/oxc shape). -/
structure SIdent where
  value? : Option String := none
  name? : Option String := none
deriving DecidableEq, Repr

/-- One element of `node.specifiers`: the analyzer reads `.type` and the
optional `imported` / `orig` / `local` / `exported` sub-nodes. -/
structure Specifier where
  type : String
  imported? : Option SIdent := none
  orig? : Option SIdent := none
  local? : Option SIdent := none
  exported? : Option SIdent := none
deriving DecidableEq, Repr

/-- One element of `node.arguments` of a call expression: the analyzer
reads `.expression` (the swc dynamic-import argument). -/
structure Argument where
  expression? : Option LitNode := none
deriving DecidableEq, Repr

/-- The `node.expression` of an expression statement: the analyzer reads
`.type` and, for an oxc `ImportExpression`, `.source`. -/
structure InnerExpr where
  type : String
  source? : Option LitNode := none
deriving DecidableEq, Repr

/-- A visited AST node, restricted to the fields the analyzer reads.
`attributeTypeTag?` stands for the import-assertion/attribute clause
that `getAssertionType` inspects (that helper lives outside the sampled
core). -/
structure Node where
  type : String
  specifiers? : Option (List Specifier) := none
  source? : Option LitNode := none
  callee? : Option LitNode := none
  arguments : List Argument := []
  expression? : Option InnerExpr := none
  attributeTypeTag? : Option String := none
deriving DecidableEq, Repr

/-- A produced analyzer entry (`FindImportsAnalyzerEntry`).  A tag in
`importSpecifiers` is `Option String` because the specifier map of the
source can produce JavaScript `undefined` (modelled `none`) when every
accessor in the fallback chain is falsy.  `assertionType = none` models
the field being absent from the object. -/
structure Entry where
  importSpecifiers : List (Option String)
  source : Option String
  assertionType : Option String := none
deriving DecidableEq, Repr

/-- JavaScript truthiness of a possibly-undefined string:
`undefined` and `""` are falsy, every other string is truthy. -/
def jsTruthyStr : Option String → Bool
  | none => false
  | some s => s != ""

/-- JavaScript `a || b` on possibly-undefined strings. -/
def jsOr (a b : Option String) : Option String :=
  if jsTruthyStr a then a else b

/-- Optional chaining `i?.value` on a specifier sub-node. -/
def idVal : Option SIdent → Option String
  | none => none
  | some i => i.value?

/-- Optional chaining `i?.name` on a specifier sub-node. -/
def idName : Option SIdent → Option String
  | none => none
  | some i => i.name?

/-- Optional chaining `n?.value` on a literal-ish node. -/
def litVal : Option LitNode → Option String
  | none => none
  | some n => n.value?

/-- `isLiteral(node)`: the type of the node is `Literal` or
`StringLiteral` (false for `undefined`). -/
def isLiteral : Option LitNode → Bool
  | none => false
  | some n => n.type == "Literal" || n.type == "StringLiteral"

/-- `getSpecifierValue(s)`: the chained `||` fallback over
`imported.value/name`, `orig.value/name`, `local.value/name`,
`exported.value/name`. -/
def getSpecifierValue (s : Specifier) : Option String :=
  jsOr (idVal s.imported?) <| jsOr (idName s.imported?) <|
  jsOr (idVal s.orig?) <| jsOr (idName s.orig?) <|
  jsOr (idVal s.local?) <| jsOr (idName s.local?) <|
  jsOr (idVal s.exported?) (idName s.exported?)

/-- `getImportOrReexportsSpecifiers(node)`: maps `node.specifiers || []`
to specifier tags. -/
def getImportOrReexportsSpecifiers (node : Node) : List (Option String) :=
  (node.specifiers?.getD []).map fun s =>
    if s.type == "ImportDefaultSpecifier" || s.type == "ExportDefaultSpecifier" ||
        (s.type == "ExportSpecifier" &&
          (idVal s.exported? == some "default" || idName s.exported? == some "default")) then
      some "[default]"
    else if s.type == "ImportNamespaceSpecifier" || s.type == "ExportNamespaceSpecifier" then
      some "[*]"
    else
      getSpecifierValue s

/-- Modelled from the spec: `getAssertionType` (a utils helper outside
the sampled core) reads the import-assertion/attribute clause off a
declaration node and returns its type tag (e.g. `"json"`) when present,
`undefined` otherwise. -/
def getAssertionType (node : Node) : Option String :=
  node.attributeTypeTag?

/-- The conditional attaching of `assertionType` to an entry: the field
is set only when `getAssertionType` returned a truthy value. -/
def attachedAssertionType (node : Node) : Option String :=
  if jsTruthyStr (getAssertionType node) then getAssertionType node else none

/-- The `ImportDeclaration` visitor callback.  An empty specifier list is
replaced by the single `[file]` tag; reading `node.source.value` throws
when `node.source` is `undefined`. -/
def visitImportDeclaration (node : Node) : Except Unit (Option Entry) :=
  let specs := getImportOrReexportsSpecifiers node
  let importSpecifiers := if specs = [] then [some "[file]"] else specs
  match node.source? with
  | none => Except.error ()
  | some src =>
      Except.ok (some { importSpecifiers := importSpecifiers, source := src.value?,
                        assertionType := attachedAssertionType node })

/-- The `ExportNamedDeclaration` visitor callback.  A regular export (no
source) is skipped; a re-export emits its specifier tags with no
empty-list fallback. -/
def visitExportNamedDeclaration (node : Node) : Except Unit (Option Entry) :=
  match node.source? with
  | none => Except.ok none
  | some src =>
      Except.ok (some { importSpecifiers := getImportOrReexportsSpecifiers node,
                        source := src.value?,
                        assertionType := attachedAssertionType node })

/-- The `ExportAllDeclaration` visitor callback. -/
def visitExportAllDeclaration (node : Node) : Except Unit (Option Entry) :=
  match node.source? with
  | none => Except.ok none
  | some src =>
      Except.ok (some { importSpecifiers := [some "[*]"], source := src.value?,
                        assertionType := attachedAssertionType node })

/-- The `CallExpression` visitor callback (swc dynamic imports): fires
only when the callee is the synthetic `Import` node; reading
`node.arguments[0].expression` throws when there is no first argument. -/
def visitCallExpression (node : Node) : Except Unit (Option Entry) :=
  if !(match node.callee? with | some c => c.type == "Import" | none => false) then
    Except.ok none
  else
    match node.arguments with
    | [] => Except.error ()
    | a :: _ =>
        let e := a.expression?
        let source := if isLiteral e then litVal e else some "[variable]"
        Except.ok (some { importSpecifiers := [some "[default]"], source := source })

/-- The `ExpressionStatement` visitor callback (oxc dynamic imports):
fires only when the immediate expression of the statement is an
`ImportExpression`; reading `node.expression.type` throws when
`node.expression` is `undefined`. -/
def visitExpressionStatement (node : Node) : Except Unit (Option Entry) :=
  match node.expression? with
  | none => Except.error ()
  | some e =>
      if e.type != "ImportExpression" then Except.ok none
      else
        let source := if isLiteral e.source? then litVal e.source? else some "[variable]"
        Except.ok (some { importSpecifiers := [some "[default]"], source := source })

/-- The visitor table passed to `oxcTraverse`, dispatched on the type of
the visited node.  Node types without a callback contribute nothing. -/
def visitNode (node : Node) : Except Unit (Option Entry) :=
  if node.type = "ImportDeclaration" then visitImportDeclaration node
  else if node.type = "ExportNamedDeclaration" then visitExportNamedDeclaration node
  else if node.type = "ExportAllDeclaration" then visitExportAllDeclaration node
  else if node.type = "CallExpression" then visitCallExpression node
  else if node.type = "ExpressionStatement" then visitExpressionStatement node
  else Except.ok none

/-- Modelled from the spec: `oxcTraverse` (a utils helper outside the
sampled core) performs one depth-first, document-order walk of the AST,
invoking the visitor callback on each visited node; a single malformed
node — one whose callback fails reading a required field — is skipped
defensively (logged, not thrown) rather than aborting the file.  The
AST is represented by its document-order sequence of visited nodes. -/
def oxcTraverse (oxcAst : List Node) (visit : Node → Except Unit (Option Entry)) :
    List Entry :=
  oxcAst.filterMap fun n =>
    match visit n with
    | Except.ok (some e) => some e
    | Except.ok none => none
    | Except.error _ => none

/-- `findImportsPerAstFile(oxcAst)`: accumulates the entries pushed by
the visitor callbacks, in traversal order. -/
def findImportsPerAstFile (oxcAst : List Node) : List Entry :=
  oxcTraverse oxcAst visitNode

/-- Modelled from the spec: `isRelativeSourcePath` (a utils helper
outside the sampled core) classifies a source as internal when it is a
relative specifier, i.e. begins with `./` or `../`. -/
def isRelativeSourcePath : Option String → Bool
  | none => false
  | some s =>
      match s.data with
      | '.' :: '/' :: _ => true
      | '.' :: '.' :: '/' :: _ => true
      | _ => false

/-- Modelled from the spec: `normalizeSourcePaths` (a helpers module
outside the sampled core) rewrites the source of each entry to canonical
form, one output entry per input entry (an entry is kept, best-effort,
even on resolution failure; filtering happens only afterwards).  The
filesystem-dependent rewriting of one source — which depends on the
relative path of the file and on the target project path — is
abstracted as the function `rw`. -/
def normalizeSourcePaths (rw : Option String → Option String)
    (transformedFile : List Entry) : List Entry :=
  transformedFile.map fun e => { e with source := rw e.source }

/-- The user-supplied part of the analyzer configuration
(`_customConfig`): a field is `none` when the user did not set it. -/
structure CustomConfig where
  keepInternalSources? : Option Bool := none
deriving DecidableEq, Repr

namespace FindImportsSwcAnalyzer

/-- The `config` getter: the default (`keepInternalSources: false`)
overridden by the spread of the custom config. -/
def config (custom : CustomConfig) : Bool :=
  custom.keepInternalSources?.getD false

/-- `analyzeFile(oxcAst, context)`: traversal, then source-path
normalization, then — unless `keepInternalSources` — the filter dropping
entries with a relative (internal) source. -/
def analyzeFile (rw : Option String → Option String) (custom : CustomConfig)
    (oxcAst : List Node) : List Entry :=
  let transformedFile := findImportsPerAstFile oxcAst
  let transformedFile := normalizeSourcePaths rw transformedFile
  if !config custom then
    transformedFile.filter fun e => !isRelativeSourcePath e.source
  else
    transformedFile

end FindImportsSwcAnalyzer

/-!
Claim-side definitions: alternative formulations written from the words
of the spec, to be compared with the definitions above.
-/

/-- The accessor chain of `getSpecifierValue`, as a list, in the order
of the source. -/
def specifierAccessorChain (s : Specifier) : List (Option String) :=
  [idVal s.imported?, idName s.imported?, idVal s.orig?, idName s.orig?,
   idVal s.local?, idName s.local?, idVal s.exported?, idName s.exported?]

/-- The first non-undefined element of a chain of accessor results — the
resolution rule as the claim words it ("the first non-undefined value of
the fallback chain"). -/
def firstDefinedStr : List (Option String) → Option String
  | [] => none
  | some v :: _ => some v
  | none :: rest => firstDefinedStr rest

/-- The first truthy element of a chain of accessor results, defaulting
to the last element — the resolution rule JavaScript `||` actually
implements. -/
def firstTruthyOrLast : List (Option String) → Option String
  | [] => none
  | [x] => x
  | x :: rest => if jsTruthyStr x then x else firstTruthyOrLast rest

/-- The per-specifier tag rule as amended: default/namespace dispatch in
the claimed order, then the first truthy accessor of the chain (falling
back to the value of the last accessor when all are falsy). -/
def specifierTagSpecd (s : Specifier) : Option String :=
  if s.type = "ImportDefaultSpecifier" ∨ s.type = "ExportDefaultSpecifier" ∨
      (s.type = "ExportSpecifier" ∧
        (idVal s.exported? = some "default" ∨ idName s.exported? = some "default")) then
    some "[default]"
  else if s.type = "ImportNamespaceSpecifier" ∨ s.type = "ExportNamespaceSpecifier" then
    some "[*]"
  else
    firstTruthyOrLast (specifierAccessorChain s)

/-!
Concrete nodes used by witnesses and counterexamples.
-/

/-- A well-formed static import `import { a } from "pkg-a"`. -/
def sampleImportNode : Node :=
  { type := "ImportDeclaration",
    specifiers? := some [{ type := "ImportSpecifier",
                           imported? := some { name? := some "a" },
                           local? := some { name? := some "a" } }],
    source? := some { type := "StringLiteral", value? := some "pkg-a" } }

/-- A well-formed export-all `export * from "pkg-b"`. -/
def sampleExportAllNode : Node :=
  { type := "ExportAllDeclaration",
    source? := some { type := "StringLiteral", value? := some "pkg-b" } }

/-- A malformed dynamic-import call `import()` with no argument: reading
`node.arguments[0].expression` throws. -/
def sampleMalformedCallNode : Node :=
  { type := "CallExpression", callee? := some { type := "Import" } }

/-- A same-module named export `export const x = 1;`: an
`ExportNamedDeclaration` with no source. -/
def sampleLocalExportNode : Node :=
  { type := "ExportNamedDeclaration", specifiers? := some [] }

/-- A bare import with no specifiers: `import "./x.js"`. -/
def sampleBareImportNode : Node :=
  { type := "ImportDeclaration", specifiers? := some [],
    source? := some { type := "StringLiteral", value? := some "./x.js" } }

/-- A named re-export with an empty specifier list and an external
source: `export {} from "pkg"`. -/
def c1CexAst : List Node :=
  [{ type := "ExportNamedDeclaration", specifiers? := some [],
     source? := some { type := "StringLiteral", value? := some "pkg" } }]

/-- An import specifier whose `imported.value` is the defined but falsy
string `""`, next to a defined `local.value`. -/
def c4CexSpecifier : Specifier :=
  { type := "ImportSpecifier",
    imported? := some { value? := some "" },
    local? := some { value? := some "x" } }

/-- An import declaration carrying `c4CexSpecifier`. -/
def c4CexNode : Node :=
  { type := "ImportDeclaration", specifiers? := some [c4CexSpecifier],
    source? := some { type := "StringLiteral", value? := some "m" } }

/-- An oxc `ImportExpression` node standing on its own (as visited when
nested in a non-statement position). -/
def sampleNestedImportExprNode : Node :=
  { type := "ImportExpression" }

/-- A variable declaration node, e.g. enclosing a nested dynamic
load as its initializer. -/
def sampleVarDeclNode : Node :=
  { type := "VariableDeclaration" }

/-- An expression statement whose immediate expression is the oxc
dynamic import `import("./b.js");`. -/
def sampleImportExprStatementNode : Node :=
  { type := "ExpressionStatement",
    expression? := some { type := "ImportExpression",
                          source? := some { type := "StringLiteral", value? := some "./b.js" } } }

/-- An AST with one internal (relative) and one external import. -/
def sampleMixedAst : List Node :=
  [{ type := "ImportDeclaration", specifiers? := some [],
     source? := some { type := "StringLiteral", value? := some "./x.js" } },
   { type := "ImportDeclaration", specifiers? := some [],
     source? := some { type := "StringLiteral", value? := some "extpkg" } }]

/-- `import { x } from s` (oxc/babel shape). -/
def mkNamedImport (x s : String) : Node :=
  { type := "ImportDeclaration",
    specifiers? := some [{ type := "ImportSpecifier",
                           imported? := some { name? := some x },
                           local? := some { name? := some x } }],
    source? := some { type := "StringLiteral", value? := some s } }

/-- `export { x } from s` (oxc/babel shape). -/
def mkNamedReexport (x s : String) : Node :=
  { type := "ExportNamedDeclaration",
    specifiers? := some [{ type := "ExportSpecifier",
                           local? := some { name? := some x },
                           exported? := some { name? := some x } }],
    source? := some { type := "StringLiteral", value? := some s } }

/-!
Theorems.
-/

/-- Splitting the traversal accumulator over list concatenation. -/
theorem findImportsPerAstFile_append (a b : List Node) :
    findImportsPerAstFile (a ++ b) = findImportsPerAstFile a ++ findImportsPerAstFile b := by
  simp [findImportsPerAstFile, oxcTraverse, List.filterMap_append]

/-- A node whose visitor emits nothing, or whose visitor throws,
contributes nothing to the accumulated entries. -/
theorem findImportsPerAstFile_cons_skip (n : Node) (ns : List Node)
    (h : visitNode n = Except.ok none ∨ visitNode n = Except.error ()) :
    findImportsPerAstFile (n :: ns) = findImportsPerAstFile ns := by
  rcases h with h | h <;>
    simp [findImportsPerAstFile, oxcTraverse, List.filterMap_cons, h]

/-- C1 counterexample: the named re-export `export {} from "pkg"` is
emitted by `analyzeFile` with an empty `importSpecifiers` sequence, so
the claimed invariant fails for named re-exports. -/
theorem named_reexport_empty_specifiers_cex :
    ¬ ∀ e ∈ FindImportsSwcAnalyzer.analyzeFile id ⟨none⟩ c1CexAst, e.importSpecifiers ≠ [] := by
  intro h
  have hmem : ({ importSpecifiers := [], source := some "pkg" } : Entry) ∈
      FindImportsSwcAnalyzer.analyzeFile id ⟨none⟩ c1CexAst := by
    have hres : FindImportsSwcAnalyzer.analyzeFile id ⟨none⟩ c1CexAst =
        [{ importSpecifiers := [], source := some "pkg" }] := rfl
    rw [hres]
    exact List.mem_singleton.mpr rfl
  exact h _ hmem rfl

/-- C1 (amended): every entry emitted for an import declaration or an
export-all has non-empty `importSpecifiers`, and an import declaration
with an empty specifier list (a bare import) yields exactly the single
tag `[file]`; a named re-export with an empty specifier list is the one
exception, yielding an empty `importSpecifiers`. -/
theorem import_specifiers_nonempty_amended (n : Node) (e : Entry)
    (he : visitNode n = Except.ok (some e)) :
    (e.importSpecifiers ≠ [] ∨
      (n.type = "ExportNamedDeclaration" ∧ n.specifiers?.getD [] = [])) ∧
    (n.type = "ImportDeclaration" → n.specifiers?.getD [] = [] →
      e.importSpecifiers = [some "[file]"]) := by
  unfold visitNode at he
  split_ifs at he with h1 h2 h3 h4 h5
  · unfold visitImportDeclaration at he
    split at he
    · simp at he
    · simp only [Except.ok.injEq, Option.some.injEq] at he
      subst he
      constructor
      · left
        by_cases hsp : getImportOrReexportsSpecifiers n = [] <;> simp [hsp]
      · intro _ hnil
        have hsp : getImportOrReexportsSpecifiers n = [] := by
          simp [getImportOrReexportsSpecifiers, hnil]
        simp [hsp]
  · unfold visitExportNamedDeclaration at he
    split at he
    · simp at he
    · simp only [Except.ok.injEq, Option.some.injEq] at he
      subst he
      refine ⟨?_, fun himp => absurd himp h1⟩
      by_cases hsp : n.specifiers?.getD [] = []
      · exact Or.inr ⟨h2, hsp⟩
      · left
        simp [getImportOrReexportsSpecifiers, hsp]
  · unfold visitExportAllDeclaration at he
    split at he
    · simp at he
    · simp only [Except.ok.injEq, Option.some.injEq] at he
      subst he
      exact ⟨Or.inl (by simp), fun himp => absurd himp h1⟩
  · unfold visitCallExpression at he
    split at he
    · simp at he
    · split at he
      · simp at he
      · simp only [Except.ok.injEq, Option.some.injEq] at he
        subst he
        exact ⟨Or.inl (by simp), fun himp => absurd himp h1⟩
  · unfold visitExpressionStatement at he
    split at he
    · simp at he
    · split at he
      · simp at he
      · simp only [Except.ok.injEq, Option.some.injEq] at he
        subst he
        exact ⟨Or.inl (by simp), fun himp => absurd himp h1⟩
  · simp at he

/-- C1 witness: the bare import `import "./x.js"` yields the single tag
`[file]`. -/
theorem import_specifiers_nonempty_amended_witness :
    (([some "[file]"] : List (Option String)) ≠ [] ∨
      (sampleBareImportNode.type = "ExportNamedDeclaration" ∧
        sampleBareImportNode.specifiers?.getD [] = [])) ∧
    (sampleBareImportNode.type = "ImportDeclaration" →
      sampleBareImportNode.specifiers?.getD [] = [] →
      ([some "[file]"] : List (Option String)) = [some "[file]"]) :=
  import_specifiers_nonempty_amended sampleBareImportNode
    { importSpecifiers := [some "[file]"], source := some "./x.js" } rfl

/-- C2: a single malformed declaration node — one whose visitor callback
fails reading a required field — is skipped, and the entries of all
other declarations are still returned, both by the raw traversal and by
`analyzeFile`. -/
theorem malformed_node_skipped (rw : Option String → Option String)
    (custom : CustomConfig) (pre post : List Node) (bad : Node)
    (hbad : visitNode bad = Except.error ()) :
    FindImportsSwcAnalyzer.analyzeFile rw custom (pre ++ bad :: post) =
      FindImportsSwcAnalyzer.analyzeFile rw custom (pre ++ post) ∧
    findImportsPerAstFile (pre ++ bad :: post) =
      findImportsPerAstFile pre ++ findImportsPerAstFile post := by
  have hfind : findImportsPerAstFile (pre ++ bad :: post) =
      findImportsPerAstFile pre ++ findImportsPerAstFile post := by
    rw [findImportsPerAstFile_append, findImportsPerAstFile_cons_skip bad post (Or.inr hbad)]
  refine ⟨?_, hfind⟩
  simp [FindImportsSwcAnalyzer.analyzeFile, hfind, findImportsPerAstFile_append]

/-- C2 witness: a dynamic-import call with no argument between two
well-formed declarations is skipped, the rest is kept. -/
theorem malformed_node_skipped_witness :
    FindImportsSwcAnalyzer.analyzeFile id ⟨none⟩
        ([sampleImportNode] ++ sampleMalformedCallNode :: [sampleExportAllNode]) =
      FindImportsSwcAnalyzer.analyzeFile id ⟨none⟩ ([sampleImportNode] ++ [sampleExportAllNode]) ∧
    findImportsPerAstFile ([sampleImportNode] ++ sampleMalformedCallNode :: [sampleExportAllNode]) =
      findImportsPerAstFile [sampleImportNode] ++ findImportsPerAstFile [sampleExportAllNode] :=
  malformed_node_skipped id ⟨none⟩ [sampleImportNode] [sampleExportAllNode]
    sampleMalformedCallNode rfl

/-- C3: for both dynamic-import forms (swc call with `Import` callee,
oxc `ImportExpression` in an expression statement), a literal source
yields an entry with that literal as `source` and `importSpecifiers`
equal to `[[default]]`; a non-literal source still yields an entry, with
the sentinel `[variable]` as `source`. -/
theorem dynamic_import_detector_entries :
    (∀ (t v : String) (rest : List Argument) (att : Option String),
        t = "Literal" ∨ t = "StringLiteral" →
        visitNode { type := "CallExpression", callee? := some { type := "Import" },
                    arguments := { expression? := some { type := t, value? := some v } } :: rest,
                    attributeTypeTag? := att } =
          Except.ok (some { importSpecifiers := [some "[default]"], source := some v })) ∧
    (∀ (arg : Argument) (rest : List Argument) (att : Option String),
        isLiteral arg.expression? = false →
        visitNode { type := "CallExpression", callee? := some { type := "Import" },
                    arguments := arg :: rest, attributeTypeTag? := att } =
          Except.ok (some { importSpecifiers := [some "[default]"], source := some "[variable]" })) ∧
    (∀ (t v : String) (att : Option String),
        t = "Literal" ∨ t = "StringLiteral" →
        visitNode { type := "ExpressionStatement",
                    expression? := some { type := "ImportExpression",
                                          source? := some { type := t, value? := some v } },
                    attributeTypeTag? := att } =
          Except.ok (some { importSpecifiers := [some "[default]"], source := some v })) ∧
    (∀ (src : Option LitNode) (att : Option String),
        isLiteral src = false →
        visitNode { type := "ExpressionStatement",
                    expression? := some { type := "ImportExpression", source? := src },
                    attributeTypeTag? := att } =
          Except.ok (some { importSpecifiers := [some "[default]"], source := some "[variable]" })) := by
  refine ⟨?_, ?_, ?_, ?_⟩
  · rintro t v rest att (ht | ht) <;> subst ht <;>
      simp [visitNode, visitCallExpression, isLiteral, litVal]
  · intro arg rest att hlit
    simp [visitNode, visitCallExpression, hlit]
  · rintro t v att (ht | ht) <;> subst ht <;>
      simp [visitNode, visitExpressionStatement, isLiteral, litVal]
  · intro src att hlit
    simp [visitNode, visitExpressionStatement, hlit]

/-- C3 witness: `import("./b.js")` and `import(path)` in both dialect
forms. -/
theorem dynamic_import_detector_entries_witness :
    visitNode { type := "CallExpression", callee? := some { type := "Import" },
                arguments := [{ expression? := some { type := "StringLiteral", value? := some "./b.js" } }],
                attributeTypeTag? := none } =
      Except.ok (some { importSpecifiers := [some "[default]"], source := some "./b.js" }) ∧
    visitNode { type := "CallExpression", callee? := some { type := "Import" },
                arguments := [{ expression? := some { type := "Identifier" } }],
                attributeTypeTag? := none } =
      Except.ok (some { importSpecifiers := [some "[default]"], source := some "[variable]" }) ∧
    visitNode { type := "ExpressionStatement",
                expression? := some { type := "ImportExpression",
                                      source? := some { type := "StringLiteral", value? := some "./b.js" } },
                attributeTypeTag? := none } =
      Except.ok (some { importSpecifiers := [some "[default]"], source := some "./b.js" }) ∧
    visitNode { type := "ExpressionStatement",
                expression? := some { type := "ImportExpression",
                                      source? := some { type := "Identifier" } },
                attributeTypeTag? := none } =
      Except.ok (some { importSpecifiers := [some "[default]"], source := some "[variable]" }) :=
  ⟨dynamic_import_detector_entries.1 "StringLiteral" "./b.js" [] none (Or.inr rfl),
   dynamic_import_detector_entries.2.1 { expression? := some { type := "Identifier" } } [] none rfl,
   dynamic_import_detector_entries.2.2.1 "StringLiteral" "./b.js" none (Or.inr rfl),
   dynamic_import_detector_entries.2.2.2 (some { type := "Identifier" }) none rfl⟩

/-- C4 counterexample: on a specifier whose first accessor value is the
defined but falsy string `""`, the claimed rule (first non-undefined
value) picks `""`, while the code picks the later truthy value `"x"`. -/
theorem specifier_value_first_defined_cex :
    firstDefinedStr (specifierAccessorChain c4CexSpecifier) = some "" ∧
    getImportOrReexportsSpecifiers c4CexNode = [some "x"] ∧
    getImportOrReexportsSpecifiers c4CexNode ≠
      [firstDefinedStr (specifierAccessorChain c4CexSpecifier)] := by
  refine ⟨rfl, rfl, ?_⟩
  decide

/-- C4 (amended): the emitted tag is `[default]` for a default node type
or an export specifier whose exported name is literally `default`, else
`[*]` for a namespace specifier, else the first truthy (defined and
non-empty) value of the accessor chain imported/original/local/exported,
falling back to the value of the last accessor when all are falsy. -/
theorem specifier_tag_amended (n : Node) :
    getImportOrReexportsSpecifiers n = (n.specifiers?.getD []).map specifierTagSpecd := by
  have point : ∀ s : Specifier,
      (if s.type == "ImportDefaultSpecifier" || s.type == "ExportDefaultSpecifier" ||
          (s.type == "ExportSpecifier" &&
            (idVal s.exported? == some "default" || idName s.exported? == some "default")) then
        some "[default]"
      else if s.type == "ImportNamespaceSpecifier" || s.type == "ExportNamespaceSpecifier" then
        some "[*]"
      else
        getSpecifierValue s) = specifierTagSpecd s := by
    intro s
    have hchain : getSpecifierValue s = firstTruthyOrLast (specifierAccessorChain s) := rfl
    simp only [specifierTagSpecd, hchain]
    congr 1 <;> simp [Bool.or_eq_true, Bool.and_eq_true, beq_iff_eq, or_assoc]
  unfold getImportOrReexportsSpecifiers
  exact List.map_congr_left fun s _ => point s

/-- C4 witness: the amended rule evaluated on the counterexample node. -/
theorem specifier_tag_amended_witness :
    getImportOrReexportsSpecifiers c4CexNode =
      (c4CexNode.specifiers?.getD []).map specifierTagSpecd :=
  specifier_tag_amended c4CexNode

/-- C5: with `keepInternalSources` false no entry with a relative
(internal) source is in the result of `analyzeFile`; with it true the
result is exactly the normalization of all originally-produced entries —
nothing is filtered and cardinality is preserved. -/
theorem keep_internal_sources_filtering (rw : Option String → Option String)
    (custom : CustomConfig) (oxcAst : List Node) :
    (FindImportsSwcAnalyzer.config custom = false →
      ∀ e ∈ FindImportsSwcAnalyzer.analyzeFile rw custom oxcAst,
        isRelativeSourcePath e.source = false) ∧
    (FindImportsSwcAnalyzer.config custom = true →
      FindImportsSwcAnalyzer.analyzeFile rw custom oxcAst =
        normalizeSourcePaths rw (findImportsPerAstFile oxcAst) ∧
      (FindImportsSwcAnalyzer.analyzeFile rw custom oxcAst).length =
        (findImportsPerAstFile oxcAst).length) := by
  constructor
  · intro hcfg e he
    unfold FindImportsSwcAnalyzer.analyzeFile at he
    rw [hcfg] at he
    simp only [Bool.not_false, if_true] at he
    have hp := (List.mem_filter.mp he).2
    simpa using hp
  · intro hcfg
    unfold FindImportsSwcAnalyzer.analyzeFile
    rw [hcfg]
    simp [normalizeSourcePaths]

/-- C5 witness: on an AST with one relative and one external import, the
default config keeps only non-relative sources, the keeping config keeps
everything. -/
theorem keep_internal_sources_filtering_witness :
    (∀ e ∈ FindImportsSwcAnalyzer.analyzeFile id ⟨none⟩ sampleMixedAst,
      isRelativeSourcePath e.source = false) ∧
    FindImportsSwcAnalyzer.analyzeFile id ⟨some true⟩ sampleMixedAst =
      normalizeSourcePaths id (findImportsPerAstFile sampleMixedAst) :=
  ⟨(keep_internal_sources_filtering id ⟨none⟩ sampleMixedAst).1 rfl,
   ((keep_internal_sources_filtering id ⟨some true⟩ sampleMixedAst).2 rfl).1⟩

/-- C6: a named-export or export-all declaration without a source (no
`from` clause) yields no entry: `analyzeFile` returns the same result as
if the node were absent. -/
theorem export_without_source_emits_nothing (rw : Option String → Option String)
    (custom : CustomConfig) (pre post : List Node) (n : Node)
    (h : n.type = "ExportNamedDeclaration" ∨ n.type = "ExportAllDeclaration")
    (hs : n.source? = none) :
    FindImportsSwcAnalyzer.analyzeFile rw custom (pre ++ n :: post) =
      FindImportsSwcAnalyzer.analyzeFile rw custom (pre ++ post) ∧
    findImportsPerAstFile (pre ++ n :: post) =
      findImportsPerAstFile pre ++ findImportsPerAstFile post := by
  have hv : visitNode n = Except.ok none := by
    rcases h with h | h <;>
      simp [visitNode, h, visitExportNamedDeclaration, visitExportAllDeclaration, hs]
  have hfind : findImportsPerAstFile (pre ++ n :: post) =
      findImportsPerAstFile pre ++ findImportsPerAstFile post := by
    rw [findImportsPerAstFile_append, findImportsPerAstFile_cons_skip n post (Or.inl hv)]
  refine ⟨?_, hfind⟩
  simp [FindImportsSwcAnalyzer.analyzeFile, hfind, findImportsPerAstFile_append]

/-- C6 witness: `export const x = 1;` between two real declarations is
not emitted. -/
theorem export_without_source_emits_nothing_witness :
    FindImportsSwcAnalyzer.analyzeFile id ⟨none⟩
        ([sampleImportNode] ++ sampleLocalExportNode :: [sampleExportAllNode]) =
      FindImportsSwcAnalyzer.analyzeFile id ⟨none⟩ ([sampleImportNode] ++ [sampleExportAllNode]) ∧
    findImportsPerAstFile ([sampleImportNode] ++ sampleLocalExportNode :: [sampleExportAllNode]) =
      findImportsPerAstFile [sampleImportNode] ++ findImportsPerAstFile [sampleExportAllNode] :=
  export_without_source_emits_nothing id ⟨none⟩ [sampleImportNode] [sampleExportAllNode]
    sampleLocalExportNode (Or.inl rfl) rfl

/-- C7: for every named specifier `x` (a valid one: not `default` and
not empty) and source `s`, the re-export `export { x } from s` and
the static `import { x } from s` produce structurally identical
entries — same `importSpecifiers`, same `source`, and no field
recording which construct produced them. -/
theorem reexport_and_import_entries_identical (x s : String)
    (hdef : x ≠ "default") (hne : x ≠ "") :
    visitNode (mkNamedReexport x s) = visitNode (mkNamedImport x s) ∧
    visitNode (mkNamedImport x s) =
      Except.ok (some { importSpecifiers := [some x], source := some s }) := by
  have himp : visitNode (mkNamedImport x s) =
      Except.ok (some { importSpecifiers := [some x], source := some s }) := by
    simp [mkNamedImport, visitNode, visitImportDeclaration, getImportOrReexportsSpecifiers,
      getSpecifierValue, jsOr, jsTruthyStr, idVal, idName, attachedAssertionType,
      getAssertionType, hne]
  have hexp : visitNode (mkNamedReexport x s) =
      Except.ok (some { importSpecifiers := [some x], source := some s }) := by
    simp [mkNamedReexport, visitNode, visitExportNamedDeclaration, getImportOrReexportsSpecifiers,
      getSpecifierValue, jsOr, jsTruthyStr, idVal, idName, attachedAssertionType,
      getAssertionType, hdef, hne]
  exact ⟨hexp.trans himp.symm, himp⟩

/-- C7 witness: `export { x } from "./a.js"` versus
`import { x } from "./a.js"`. -/
theorem reexport_and_import_entries_identical_witness :
    visitNode (mkNamedReexport "x" "./a.js") = visitNode (mkNamedImport "x" "./a.js") ∧
    visitNode (mkNamedImport "x" "./a.js") =
      Except.ok (some { importSpecifiers := [some "x"], source := some "./a.js" }) :=
  reexport_and_import_entries_identical "x" "./a.js" (by decide) (by decide)

/-- C8: the traversal result is the document-order concatenation of the
entries of each visited node — entries are accumulated in visit order
and never reordered. -/
theorem find_imports_preserves_document_order (oxcAst : List Node) :
    findImportsPerAstFile oxcAst = (oxcAst.map fun n => findImportsPerAstFile [n]).flatten := by
  induction oxcAst with
  | nil => rfl
  | cons n ns ih =>
      have h : n :: ns = [n] ++ ns := rfl
      rw [h, findImportsPerAstFile_append, ih]
      simp

/-- C8 witness: document order on a mixed AST. -/
theorem find_imports_preserves_document_order_witness :
    findImportsPerAstFile [sampleImportNode, sampleImportExprStatementNode, sampleExportAllNode] =
      ([sampleImportNode, sampleImportExprStatementNode, sampleExportAllNode].map
        fun n => findImportsPerAstFile [n]).flatten :=
  find_imports_preserves_document_order
    [sampleImportNode, sampleImportExprStatementNode, sampleExportAllNode]

/-- C9: an entry emitted for either dynamic-import form never carries
`assertionType`, whatever attribute clause the node carries; an entry
with `assertionType` can only come from a static import, a named
re-export, or an export-all. -/
theorem dynamic_import_never_carries_assertion_type (n : Node) (e : Entry)
    (he : visitNode n = Except.ok (some e)) :
    ((n.type = "CallExpression" ∨ n.type = "ExpressionStatement") → e.assertionType = none) ∧
    (e.assertionType ≠ none →
      n.type = "ImportDeclaration" ∨ n.type = "ExportNamedDeclaration" ∨
        n.type = "ExportAllDeclaration") := by
  unfold visitNode at he
  split_ifs at he with h1 h2 h3 h4 h5
  · refine ⟨?_, fun _ => Or.inl h1⟩
    rintro (hc | hc) <;> rw [h1] at hc <;> exact absurd hc (by decide)
  · refine ⟨?_, fun _ => Or.inr (Or.inl h2)⟩
    rintro (hc | hc) <;> rw [h2] at hc <;> exact absurd hc (by decide)
  · refine ⟨?_, fun _ => Or.inr (Or.inr h3)⟩
    rintro (hc | hc) <;> rw [h3] at hc <;> exact absurd hc (by decide)
  · unfold visitCallExpression at he
    split at he
    · simp at he
    · split at he
      · simp at he
      · simp only [Except.ok.injEq, Option.some.injEq] at he
        subst he
        exact ⟨fun _ => rfl, fun hne => absurd rfl hne⟩
  · unfold visitExpressionStatement at he
    split at he
    · simp at he
    · split at he
      · simp at he
      · simp only [Except.ok.injEq, Option.some.injEq] at he
        subst he
        exact ⟨fun _ => rfl, fun hne => absurd rfl hne⟩
  · simp at he

/-- C9 witness: a dynamic-import statement entry carries no
`assertionType`. -/
theorem dynamic_import_never_carries_assertion_type_witness :
    ((sampleImportExprStatementNode.type = "CallExpression" ∨
        sampleImportExprStatementNode.type = "ExpressionStatement") →
      ({ importSpecifiers := [some "[default]"], source := some "./b.js" } : Entry).assertionType =
        none) ∧
    (({ importSpecifiers := [some "[default]"], source := some "./b.js" } : Entry).assertionType ≠
        none →
      sampleImportExprStatementNode.type = "ImportDeclaration" ∨
        sampleImportExprStatementNode.type = "ExportNamedDeclaration" ∨
        sampleImportExprStatementNode.type = "ExportAllDeclaration") :=
  dynamic_import_never_carries_assertion_type sampleImportExprStatementNode
    { importSpecifiers := [some "[default]"], source := some "./b.js" } rfl

/-- C10: an oxc `ImportExpression` produces an entry only as the
immediate expression of an expression statement: the expression node
itself, any enclosing node type without a callback (e.g. a variable
declaration or await operand), a call with a non-`Import` callee, and an
expression statement over any other expression all yield no entry, while
the statement form yields the dynamic-import entry. -/
theorem oxc_dynamic_import_only_in_expression_statement (n : Node) :
    (n.type ∉ (["ImportDeclaration", "ExportNamedDeclaration", "ExportAllDeclaration",
        "CallExpression", "ExpressionStatement"] : List String) →
      visitNode n = Except.ok none) ∧
    (∀ c, n.type = "CallExpression" → n.callee? = some c → c.type ≠ "Import" →
      visitNode n = Except.ok none) ∧
    (n.type = "CallExpression" → n.callee? = none → visitNode n = Except.ok none) ∧
    (∀ ie, n.type = "ExpressionStatement" → n.expression? = some ie →
      ie.type ≠ "ImportExpression" → visitNode n = Except.ok none) ∧
    (∀ ie, n.type = "ExpressionStatement" → n.expression? = some ie →
      ie.type = "ImportExpression" →
      visitNode n = Except.ok (some
        { importSpecifiers := [some "[default]"],
          source := if isLiteral ie.source? then litVal ie.source? else some "[variable]" })) := by
  refine ⟨?_, ?_, ?_, ?_, ?_⟩
  · intro hnot
    simp only [List.mem_cons, List.mem_singleton, not_or] at hnot
    obtain ⟨n1, n2, n3, n4, n5⟩ := hnot
    simp [visitNode, n1, n2, n3, n4]
    intro hc
    exact absurd hc n5.1
  · intro c hty hc hne
    simp [visitNode, hty, visitCallExpression, hc, hne]
  · intro hty hc
    simp [visitNode, hty, visitCallExpression, hc]
  · intro ie hty hex hne
    simp [visitNode, hty, visitExpressionStatement, hex, hne]
  · intro ie hty hex hie
    simp [visitNode, hty, visitExpressionStatement, hex, hie]

/-- C10 witness: a bare `ImportExpression` node and a variable
declaration yield nothing; the statement form yields the entry. -/
theorem oxc_dynamic_import_only_in_expression_statement_witness :
    visitNode sampleNestedImportExprNode = Except.ok none ∧
    visitNode sampleVarDeclNode = Except.ok none ∧
    visitNode sampleImportExprStatementNode =
      Except.ok (some { importSpecifiers := [some "[default]"], source := some "./b.js" }) := by
  refine ⟨?_, ?_, ?_⟩
  · exact (oxc_dynamic_import_only_in_expression_statement sampleNestedImportExprNode).1
      (by decide)
  · exact (oxc_dynamic_import_only_in_expression_statement sampleVarDeclNode).1
      (by decide)
  · exact (oxc_dynamic_import_only_in_expression_statement
        sampleImportExprStatementNode).2.2.2.2
      { type := "ImportExpression",
        source? := some { type := "StringLiteral", value? := some "./b.js" } } rfl rfl rfl
